import Mathlib

/-!
A verification development for the channel-output dispatch and encoding
layer of a lighting player: the UDP multi-universe protocol sink
(`ArtNetOutputData`), the memory-mapped framebuffer sink
(`FBMatrixOutput`), and the kernel network-state monitor
(`NetworkMonitor`), shallowly embedded as executable Lean definitions.
-/

/-- `byteSlice l i n` is the byte range `l[i .. i+n)` (truncated at the end of
the list), the Lean counterpart of a `(pointer + i, length n)` view used
throughout the C++ sources. -/
def byteSlice (l : List Nat) (i n : Nat) : List Nat := (l.drop i).take n

namespace ArtNet

/-- `ARTNET_HEADER_LENGTH` from `ArtNet.cpp`. -/
def ARTNET_HEADER_LENGTH : Nat := 18

/-- `ARTNET_SYNC_PACKET_LENGTH` from `ArtNet.cpp`. -/
def ARTNET_SYNC_PACKET_LENGTH : Nat := 14

/-- `ARTNET_SEQUENCE_INDEX` from `ArtNet.cpp`. -/
def ARTNET_SEQUENCE_INDEX : Nat := 12

/-- `ARTNET_UNIVERSE_INDEX` from `ArtNet.cpp`. -/
def ARTNET_UNIVERSE_INDEX : Nat := 14

/-- `ARTNET_LENGTH_INDEX` from `ArtNet.cpp`. -/
def ARTNET_LENGTH_INDEX : Nat := 16

/-- The 18-byte `ArtNetHeader` template from `ArtNet.cpp`: 8-byte id
"Art-Net\0", opcode low/high, protocol version high/low, sequence,
physical, universe low/high, length high/low. -/
def ArtNetHeader : List Nat :=
  [65, 114, 116, 45, 78, 101, 116, 0,
   0x00, 0x50,
   0x00, 0x0E,
   0x00,
   0x00,
   0x00, 0x00,
   0x00, 0x00]

/-- The per-universe header built in the `ArtNetOutputData` constructor for
the `x`-th universe: the template with the universe id stored low byte
first at offset 14 and the channel count stored high byte first at
offset 16 (each `(char)` cast truncates to 8 bits). -/
def mkArtNetHeader (universeNum channelCount x : Nat) : List Nat :=
  let uni := universeNum + x
  ((((ArtNetHeader.set (ARTNET_UNIVERSE_INDEX) (uni % 256)).set
      (ARTNET_UNIVERSE_INDEX + 1) ((uni / 256) % 256)).set
      (ARTNET_LENGTH_INDEX) ((channelCount / 256) % 256)).set
      (ARTNET_LENGTH_INDEX + 1) (channelCount % 256))

/-- The configuration record consumed by the `ArtNetOutputData`
constructor: `id`, `priority`, optional `universeCount`, the addressing
`type` (2 = broadcast, 3 = unicast), `address`, plus the base-class
fields `startChannel` (1-based), `channelCount` and the configured
active flag. -/
structure ArtNetConfig where
  id : Nat
  priority : Int
  hasUniverseCount : Bool
  universeCountCfg : Int
  type : Nat
  address : String
  startChannel : Nat
  channelCount : Nat
  activeCfg : Bool
deriving DecidableEq, Repr

/-- The state of one `ArtNetOutputData` sink.  `snapshot` is the
FrameSnapshot of the frame-diff cache (`none` until a frame has been
saved); `anHeaders` are the per-universe packet header templates;
`payloadLengths` are the `iov_len` values of the payload iovecs. -/
structure ArtNetOutputData where
  universeNum : Nat
  universeCount : Nat
  startChannel : Nat
  channelCount : Nat
  valid : Bool
  active : Bool
  sequenceNumber : Nat
  skippedFrames : Nat
  snapshot : Option (List Nat)
  anHeaders : List (List Nat)
  payloadLengths : List Nat
deriving DecidableEq, Repr

/-- The `ArtNetOutputData` constructor.  `resolved` is the outcome of the
one-time hostname resolution (`toInetAddr` writing through `valid`),
modelled from the spec: "`valid` reflects whether configuration resolved
to usable addressing (e.g., hostname resolution succeeded)"; the base
class starts the sink with `valid = true` and `active` from the
configuration.  Everything else follows `ArtNet.cpp` lines 83-148:
`universeCount` defaults to 1 and is clamped up to 1, broadcast sinks
skip resolution, a failed resolution on an active sink surfaces a
warning and clears `active`, and one 18-byte header plus one
`channelCount`-byte payload iovec is prepared per universe. -/
def ArtNetOutputData.construct (cfg : ArtNetConfig) (resolved : Bool) :
    ArtNetOutputData :=
  let uc0 : Int := if cfg.hasUniverseCount then cfg.universeCountCfg else 1
  let uc : Nat := if uc0 < 1 then 1 else uc0.toNat
  let valid0 : Bool := true
  let valid1 : Bool := if cfg.type = 2 then valid0 else (valid0 && resolved)
  let active1 : Bool :=
    if !valid1 && cfg.activeCfg then false else cfg.activeCfg
  { universeNum := cfg.id
    universeCount := uc
    startChannel := cfg.startChannel
    channelCount := cfg.channelCount
    valid := valid1
    active := active1
    sequenceNumber := 1
    skippedFrames := 0
    snapshot := none
    anHeaders := (List.range uc).map (fun x => mkArtNetHeader cfg.id cfg.channelCount x)
    payloadLengths := List.replicate uc cfg.channelCount }

/-- `ArtNetOutputData::GetRequiredChannelRange(min, max)`:
`min = startChannel - 1`, `max = startChannel + channelCount*universeCount - 1`. -/
def ArtNetOutputData.GetRequiredChannelRange (s : ArtNetOutputData) : Int × Int :=
  ((s.startChannel : Int) - 1,
   (s.startChannel : Int) + ((s.channelCount * s.universeCount : Nat) : Int) - 1)

/-- Modelled from the spec: `UDPOutputData::NeedToOutputFrame` of the base
class (not among the given sources) decides, per universe, whether the
byte range `[scOffset + start, + len)` of the show buffer differs from
the same `[start, + len)` range of the stored FrameSnapshot; a sink with
no snapshot yet must output ("If changed (or no snapshot yet), queue one
datagram"). -/
def NeedToOutputFrame (snapshot : Option (List Nat)) (buf : List Nat)
    (scOffset start len : Nat) : Bool :=
  match snapshot with
  | none => true
  | some snap =>
    if byteSlice buf (scOffset + start) len = byteSlice snap start len then false
    else true

/-- One datagram queued for the ArtNet destination port: either a
per-universe data packet (header iovec for universe index `x` carrying
the written sequence byte, plus the aliased payload range), or the
shared synchronization packet (`msg_iov == &ArtNetSyncIovecs`). -/
inductive ArtNetMsg where
  | data (x : Nat) (seqByte : Nat) (payload : List Nat)
  | sync
deriving DecidableEq, Repr

/-- Whether a queued message is the ArtNet synchronization packet — the
`msg.msg_hdr.msg_iov == &ArtNetSyncIovecs` test of `PostPrepareData`. -/
def ArtNetMsg.isSync : ArtNetMsg → Bool
  | .sync => true
  | _ => false

/-- The slice of `UDPOutputMessages` relevant to ArtNet: whether the
shared socket with source port `ARTNET_DEST_PORT` exists, and the
ordered list of datagrams pending for that port this tick. -/
structure UDPOutputMessages where
  hasArtNetSocket : Bool
  artnet : List ArtNetMsg
deriving DecidableEq, Repr

/-- The per-universe test performed in the `PrepareData` loop for
universe `x`: in the loop, `start = x * channelCount` and the buffer
offset is `startChannel - 1`. -/
def ArtNetOutputData.needX (s : ArtNetOutputData) (buf : List Nat) (x : Nat) : Bool :=
  NeedToOutputFrame s.snapshot buf (s.startChannel - 1) (x * s.channelCount)
    s.channelCount

/-- The data packets queued by one `PrepareData` call, in universe order:
one per universe whose range changed (or with no snapshot yet), carrying
the current sequence byte and aliasing the payload range
`cur = channelData + startChannel - 1 + x*channelCount`. -/
def ArtNetOutputData.queuedMsgs (s : ArtNetOutputData) (buf : List Nat) :
    List ArtNetMsg :=
  ((List.range s.universeCount).filter (fun x => s.needX buf x)).map
    (fun x => ArtNetMsg.data x s.sequenceNumber
      (byteSlice buf (s.startChannel - 1 + x * s.channelCount) s.channelCount))

/-- `ArtNetOutputData::PrepareData(channelData, messages)`
(`ArtNet.cpp` lines 160-207).  Nothing happens unless `valid && active`.
Otherwise the shared ArtNet socket is ensured, each changed universe is
queued with the current sequence byte, the sequence counter is advanced
with wraparound skipping 0 (the counter is an 8-bit field, modelled from
the spec: "sequence number cycles 1..255, skipping 0"), the
skipped-frame counter is bumped when at least one universe was skipped,
and `SaveFrame` (modelled from the spec: the FrameSnapshot becomes "the
most recently transmitted copy of a sink's required byte range")
overwrites the snapshot with the full range unless every universe was
skipped. -/
def ArtNetOutputData.PrepareData (s : ArtNetOutputData) (buf : List Nat)
    (m : UDPOutputMessages) : ArtNetOutputData × UDPOutputMessages :=
  if s.valid && s.active then
    let m1 : UDPOutputMessages :=
      { hasArtNetSocket := true
        artnet := m.artnet ++ s.queuedMsgs buf }
    let skipped : Bool := (List.range s.universeCount).any (fun x => !(s.needX buf x))
    let allSkipped : Bool := (List.range s.universeCount).all (fun x => !(s.needX buf x))
    let seq1 : Nat := (s.sequenceNumber + 1) % 256
    let seq2 : Nat := if seq1 = 0 then (seq1 + 1) % 256 else seq1
    let s1 : ArtNetOutputData :=
      { s with
        sequenceNumber := seq2
        skippedFrames := if skipped then s.skippedFrames + 1 else s.skippedFrames
        snapshot :=
          if allSkipped then s.snapshot
          else some (byteSlice buf (s.startChannel - 1)
                      (s.universeCount * s.channelCount)) }
    (s1, m1)
  else (s, m)

/-- `ArtNetOutputData::PostPrepareData(channelData, msgs)`
(`ArtNet.cpp` lines 208-227): when `valid && active`, scan the pending
ArtNet messages and return unchanged as soon as the synchronization
packet is found; otherwise append exactly one synchronization packet. -/
def ArtNetOutputData.PostPrepareData (s : ArtNetOutputData)
    (m : UDPOutputMessages) : UDPOutputMessages :=
  if s.valid && s.active then
    if m.artnet.any (fun msg => msg.isSync) then m
    else { m with artnet := m.artnet ++ [ArtNetMsg.sync] }
  else m

/-- A sample broadcast configuration used to instantiate theorems. -/
def sampleConfig : ArtNetConfig :=
  { id := 1
    priority := 0
    hasUniverseCount := true
    universeCountCfg := 2
    type := 2
    address := ""
    startChannel := 10
    channelCount := 6
    activeCfg := true }

/-- A sample unicast configuration (addressing type 3) used to
instantiate theorems about failed hostname resolution. -/
def sampleUnicastConfig : ArtNetConfig :=
  { id := 4
    priority := 0
    hasUniverseCount := false
    universeCountCfg := 0
    type := 3
    address := "no-such-host.invalid"
    startChannel := 1
    channelCount := 4
    activeCfg := true }

/-- One dispatch-loop interaction with a protocol sink within a tick:
either a `PrepareData` call with that tick's show buffer, or a
`PostPrepareData` call. -/
inductive SinkOp where
  | prep (buf : List Nat)
  | post
deriving DecidableEq, Repr

/-- Apply one dispatch-loop interaction to a sink and the pending message
batch. -/
def applyOp (sm : ArtNetOutputData × UDPOutputMessages) (op : SinkOp) :
    ArtNetOutputData × UDPOutputMessages :=
  match op with
  | .prep buf => sm.1.PrepareData buf sm.2
  | .post => (sm.1, sm.1.PostPrepareData sm.2)

/-- Run a sequence of dispatch-loop interactions against one sink. -/
def runOps (sm : ArtNetOutputData × UDPOutputMessages) (ops : List SinkOp) :
    ArtNetOutputData × UDPOutputMessages :=
  ops.foldl applyOp sm

/-- The sink state after a sequence of consecutive `PrepareData` calls,
each against a fresh per-tick message batch. -/
def runPrepare (s : ArtNetOutputData) (bufs : List (List Nat)) : ArtNetOutputData :=
  bufs.foldl (fun st b => (st.PrepareData b { hasArtNetSocket := false, artnet := [] }).1) s

/-- The number of synchronization packets pending in a batch. -/
def countSync (l : List ArtNetMsg) : Nat := (l.filter (fun msg => msg.isSync)).length

end ArtNet

namespace FB

/-- The part of `FBMatrixOutput`'s state that `SendData` reads and
writes (`FBMatrix.cpp` lines 428-443): whether double buffering was
negotiated, the page parity flag `m_topFrame` (initialised `true` in the
constructor), the byte size `m_screenSize` of one full frame, the
visible height `m_vInfo.yres`, and the `yoffset` of the half most
recently panned to the display (`none` until the first
`FBIOPAN_DISPLAY`). -/
structure FBMatrixOutput where
  isDoubleBuffered : Bool
  topFrame : Bool
  screenSize : Nat
  yres : Nat
  displayedYoffset : Option Nat
deriving DecidableEq, Repr

/-- `FBMatrixOutput::SendData` (`FBMatrix.cpp` lines 428-443): pick the
destination half (`dst += m_screenSize` and `yoffset = yres` exactly
when double buffered and `!m_topFrame`), toggle `m_topFrame`, copy the
prepared frame, and pan the display to the just-written half when
double buffered.  Returns the updated state paired with `true` when the
second half (byte offset `m_screenSize`) was written and `false` when
the first half (byte offset `0`) was written. -/
def FBMatrixOutput.SendData (s : FBMatrixOutput) : FBMatrixOutput × Bool :=
  let secondHalf : Bool := s.isDoubleBuffered && !s.topFrame
  let yoff : Nat := if secondHalf then s.yres else 0
  let s1 : FBMatrixOutput :=
    { s with
      topFrame := !s.topFrame
      displayedYoffset :=
        if s.isDoubleBuffered then some yoff else s.displayedYoffset }
  (s1, secondHalf)

/-- The state after `n` consecutive `SendData` calls. -/
def FBMatrixOutput.sendN (s : FBMatrixOutput) : Nat → FBMatrixOutput
  | 0 => s
  | n + 1 => ((FBMatrixOutput.sendN s n).SendData).1

/-- Which half call number `n` (0-based) writes, starting from `s`. -/
def FBMatrixOutput.writtenHalf (s : FBMatrixOutput) (n : Nat) : Bool :=
  ((FBMatrixOutput.sendN s n).SendData).2

/-- The device-dependent outcomes of the system calls `FBMatrixOutput::Init`
makes, in program order: `open`, the first `FBIOGET_VSCREENINFO`, the
reported bits per pixel, `FBIOPUT_VSCREENINFO` with the doubled virtual
height, the fallback `FBIOPUT_VSCREENINFO` with the single height,
`FBIOGET_FSCREENINFO`, the `/dev/console` open, and the two `mmap`
attempts. -/
structure FBDevice where
  openOk : Bool
  getVInfoOk : Bool
  bpp : Nat
  putVInfoDoubleOk : Bool
  putVInfoSingleOk : Bool
  getFInfoOk : Bool
  consoleOpenOk : Bool
  mmapFirstOk : Bool
  mmapSingleOk : Bool
deriving DecidableEq, Repr

/-- The configuration record read at the top of `FBMatrixOutput::Init`,
plus the base-class channel count. -/
structure FBConfig where
  width : Nat
  height : Nat
  colorOrder : String
  invert : Bool
  device : String
  scaling : String
  channelCount : Nat
deriving DecidableEq, Repr

/-- Externally visible actions `Init` performs on the device while
failing or finishing. -/
inductive FBAction where
  | closeDevice
  | restoreOrigMode
  | setGraphicsMode
deriving DecidableEq, Repr

/-- `FBMatrixOutput::Init` (`FBMatrix.cpp` lines 98-275), returning the
C++ result (`0` failure, `1` success — the final
`ChannelOutputBase::Init`, not among the given sources, is modelled
from the spec as returning success) together with the ordered list of
device actions taken on the exit path and the negotiated
double-buffering flag.  The order of checks follows the source: open,
read variable info, bit depth in {16, 24, 32}, set the doubled (else
single) virtual resolution, read fixed info, the channel-count check
`m_channelCount != m_width * m_height * 3` (which restores the original
mode and closes the device on failure), the console if on `/dev/fb0`,
then the mapping.  This definition is the tail after the
virtual-resolution negotiation; `FBInit` below is the whole routine. -/
def FBInitAfterPut (cfg : FBConfig) (dev : FBDevice) (isDoubleBuffered : Bool) :
    Nat × List FBAction × Bool :=
  if !dev.getFInfoOk then (0, [.closeDevice], isDoubleBuffered)
  else if cfg.channelCount ≠ cfg.width * cfg.height * 3 then
    (0, [.restoreOrigMode, .closeDevice], isDoubleBuffered)
  else if cfg.device = "/dev/fb0" && !dev.consoleOpenOk then
    (0, [.restoreOrigMode, .closeDevice], isDoubleBuffered)
  else
    let acts := if cfg.device = "/dev/fb0" then [FBAction.setGraphicsMode] else []
    if !dev.mmapFirstOk then
      let isDoubleBuffered := false
      if !dev.mmapSingleOk then
        (0, acts ++ [.restoreOrigMode, .closeDevice], isDoubleBuffered)
      else (1, acts, isDoubleBuffered)
    else (1, acts, isDoubleBuffered)

/-- `FBMatrixOutput::Init` proper: the check order of the source, with
`FBInitAfterPut` as the tail after the virtual-resolution negotiation. -/
def FBInit (cfg : FBConfig) (dev : FBDevice) : Nat × List FBAction × Bool :=
  if !dev.openOk then (0, [], false)
  else if !dev.getVInfoOk then (0, [.closeDevice], false)
  else if !(dev.bpp = 32 || dev.bpp = 24 || dev.bpp = 16) then (0, [.closeDevice], false)
  else
    let isDoubleBuffered := true
    if !dev.putVInfoDoubleOk then
      let isDoubleBuffered := false
      if !dev.putVInfoSingleOk then (0, [.closeDevice], isDoubleBuffered)
      else FBInitAfterPut cfg dev isDoubleBuffered
    else FBInitAfterPut cfg dev isDoubleBuffered

/-- A sample framebuffer configuration whose channel count does not
match `width * height * 3`. -/
def sampleBadConfig : FBConfig :=
  { width := 2, height := 2, colorOrder := "RGB", invert := false,
    device := "/dev/fb0", scaling := "Hardware", channelCount := 5 }

/-- A sample fully cooperative framebuffer device. -/
def sampleDevice : FBDevice :=
  { openOk := true, getVInfoOk := true, bpp := 24, putVInfoDoubleOk := true,
    putVInfoSingleOk := true, getFInfoOk := true, consoleOpenOk := true,
    mmapFirstOk := true, mmapSingleOk := true }

end FB

namespace NetMon

/-- `NetEventType` from `NetworkMonitor.h` as used by
`NetworkMonitor.cpp`: new/removed link, new/removed IPv4 address. -/
inductive NetEventType where
  | NEW_LINK
  | DEL_LINK
  | NEW_ADDR
  | DEL_ADDR
deriving DecidableEq, Repr

/-- One decoded network event as handed to subscribers:
`(kind, up flag, interface name)`. -/
structure NetEvent where
  kind : NetEventType
  up : Int
  name : String
deriving DecidableEq, Repr

/-- The callback registry of `NetworkMonitor`: the next id to hand out
(`curId`, monotonically assigned — modelled from the spec, the header
with its initial value is not among the given sources) and the ids
present in the `std::map<int, callback>` in ascending key order. -/
structure NetworkMonitor where
  curId : Nat
  callbacks : List Nat
deriving DecidableEq, Repr

/-- Ordered insertion into the ascending key list of a `std::map`. -/
def mapInsert (id : Nat) : List Nat → List Nat
  | [] => [id]
  | k :: ks =>
    if id < k then id :: k :: ks
    else if id = k then k :: ks
    else k :: mapInsert id ks

/-- `NetworkMonitor::registerCallback`: `int id = curId++;
callbacks[id] = callback; return id;`. -/
def NetworkMonitor.registerCallback (s : NetworkMonitor) : NetworkMonitor × Nat :=
  let id := s.curId
  ({ curId := s.curId + 1, callbacks := mapInsert id s.callbacks }, id)

/-- `NetworkMonitor::removeCallback`: `callbacks.erase(id);`. -/
def NetworkMonitor.removeCallback (s : NetworkMonitor) (id : Nat) : NetworkMonitor :=
  { s with callbacks := s.callbacks.filter (fun k => k ≠ id) }

/-- `NetworkMonitor::callCallbacks(nl, up, n)`: invoke every registered
callback once, in map (ascending id) order, with the decoded event.
The result is the invocation record: which subscriber was called with
which event. -/
def NetworkMonitor.callCallbacks (s : NetworkMonitor) (ev : NetEvent) :
    List (Nat × NetEvent) :=
  s.callbacks.map (fun id => (id, ev))

/-- The fresh monitor: no subscribers, ids start at 0. -/
def NetworkMonitor.INSTANCE : NetworkMonitor := { curId := 0, callbacks := [] }

/-- Registry well-formedness: every registered id was handed out before
`curId`, and the map keys are strictly ascending. -/
def NetworkMonitor.WF (s : NetworkMonitor) : Prop :=
  (∀ i ∈ s.callbacks, i < s.curId) ∧ s.callbacks.Chain' (· < ·)

end NetMon

/-! ## Theorems -/

/-- Helper: the constructor-built per-universe header, written out. -/
theorem mkArtNetHeader_eq (u cc x : Nat) :
    ArtNet.mkArtNetHeader u cc x =
      [65, 114, 116, 45, 78, 101, 116, 0, 0, 0x50, 0, 0x0E, 0, 0,
       (u + x) % 256, ((u + x) / 256) % 256,
       (cc / 256) % 256, cc % 256] := rfl

/-- C1: for every protocol sink configured with universeCount N ≥ 1,
`GetRequiredChannelRange(min, max)` returns `min = startChannel - 1` and
the half-open range `[min, max)` has length exactly `channelCount * N`. -/
theorem artnet_required_channel_range (cfg : ArtNet.ArtNetConfig) (resolved : Bool)
    (huc : cfg.hasUniverseCount = true) (hN : 1 ≤ cfg.universeCountCfg) :
    ((ArtNet.ArtNetOutputData.construct cfg resolved).GetRequiredChannelRange).1
      = (cfg.startChannel : Int) - 1 ∧
    ((ArtNet.ArtNetOutputData.construct cfg resolved).GetRequiredChannelRange).2
        - ((ArtNet.ArtNetOutputData.construct cfg resolved).GetRequiredChannelRange).1
      = (cfg.channelCount : Int) * cfg.universeCountCfg := by
  have h1 : ¬ (cfg.universeCountCfg < 1) := not_lt.mpr hN
  refine ⟨rfl, ?_⟩
  simp only [ArtNet.ArtNetOutputData.construct,
    ArtNet.ArtNetOutputData.GetRequiredChannelRange, huc, if_true, h1, if_false]
  push_cast [Int.toNat_of_nonneg (by omega : (0 : Int) ≤ cfg.universeCountCfg)]
  ring

/-- Witness for C1 at the sample configuration. -/
theorem artnet_required_channel_range_witness :
    ArtNet.sampleConfig.hasUniverseCount = true ∧
    1 ≤ ArtNet.sampleConfig.universeCountCfg ∧
    (((ArtNet.ArtNetOutputData.construct ArtNet.sampleConfig true).GetRequiredChannelRange).1
      = (ArtNet.sampleConfig.startChannel : Int) - 1 ∧
    ((ArtNet.ArtNetOutputData.construct ArtNet.sampleConfig true).GetRequiredChannelRange).2
        - ((ArtNet.ArtNetOutputData.construct ArtNet.sampleConfig true).GetRequiredChannelRange).1
      = (ArtNet.sampleConfig.channelCount : Int) * ArtNet.sampleConfig.universeCountCfg) :=
  ⟨rfl, by decide,
   artnet_required_channel_range ArtNet.sampleConfig true rfl (by decide)⟩

/-- C8: each per-universe packet template built at construction is an
18-byte header whose universe id field at offset 14 is little-endian
(low byte first) with value `universe + x`, whose length field at
offset 16 is big-endian (high byte first) with value the configured
per-universe channel count, and whose payload iovec length equals that
channel count, which is even (the channel count is configured by the
base class, not among the given sources; the spec makes it even). -/
theorem artnet_header_layout (cfg : ArtNet.ArtNetConfig) (resolved : Bool) (x : Nat)
    (hx : x < (ArtNet.ArtNetOutputData.construct cfg resolved).universeCount)
    (hu : cfg.id + x < 65536) (hc : cfg.channelCount < 65536)
    (heven : cfg.channelCount % 2 = 0) :
    ∃ hdr, (ArtNet.ArtNetOutputData.construct cfg resolved).anHeaders[x]? = some hdr ∧
      hdr.length = ArtNet.ARTNET_HEADER_LENGTH ∧
      hdr[14]? = some ((cfg.id + x) % 256) ∧
      hdr[15]? = some (((cfg.id + x) / 256) % 256) ∧
      (cfg.id + x) % 256 + 256 * (((cfg.id + x) / 256) % 256) = cfg.id + x ∧
      hdr[16]? = some ((cfg.channelCount / 256) % 256) ∧
      hdr[17]? = some (cfg.channelCount % 256) ∧
      256 * ((cfg.channelCount / 256) % 256) + cfg.channelCount % 256 = cfg.channelCount ∧
      (ArtNet.ArtNetOutputData.construct cfg resolved).payloadLengths[x]? = some cfg.channelCount ∧
      cfg.channelCount % 2 = 0 := by
  refine ⟨ArtNet.mkArtNetHeader cfg.id cfg.channelCount x, ?_, ?_, ?_, ?_, by omega,
    ?_, ?_, by omega, ?_, heven⟩
  · simp only [ArtNet.ArtNetOutputData.construct] at hx ⊢
    simp [List.getElem?_map, List.getElem?_range hx]
  · simp [mkArtNetHeader_eq, ArtNet.ARTNET_HEADER_LENGTH]
  · simp [mkArtNetHeader_eq]
  · simp [mkArtNetHeader_eq]
  · simp [mkArtNetHeader_eq]
  · simp [mkArtNetHeader_eq]
  · simp only [ArtNet.ArtNetOutputData.construct] at hx ⊢
    simp [List.getElem?_replicate, hx]

/-- Witness for C8 at the sample configuration, universe index 1. -/
theorem artnet_header_layout_witness :
    1 < (ArtNet.ArtNetOutputData.construct ArtNet.sampleConfig true).universeCount ∧
    ArtNet.sampleConfig.id + 1 < 65536 ∧ ArtNet.sampleConfig.channelCount < 65536 ∧
    ArtNet.sampleConfig.channelCount % 2 = 0 ∧
    (∃ hdr, (ArtNet.ArtNetOutputData.construct ArtNet.sampleConfig true).anHeaders[1]? = some hdr ∧
      hdr.length = ArtNet.ARTNET_HEADER_LENGTH ∧
      hdr[14]? = some ((ArtNet.sampleConfig.id + 1) % 256) ∧
      hdr[15]? = some (((ArtNet.sampleConfig.id + 1) / 256) % 256) ∧
      (ArtNet.sampleConfig.id + 1) % 256 + 256 * (((ArtNet.sampleConfig.id + 1) / 256) % 256)
        = ArtNet.sampleConfig.id + 1 ∧
      hdr[16]? = some ((ArtNet.sampleConfig.channelCount / 256) % 256) ∧
      hdr[17]? = some (ArtNet.sampleConfig.channelCount % 256) ∧
      256 * ((ArtNet.sampleConfig.channelCount / 256) % 256) + ArtNet.sampleConfig.channelCount % 256
        = ArtNet.sampleConfig.channelCount ∧
      (ArtNet.ArtNetOutputData.construct ArtNet.sampleConfig true).payloadLengths[1]?
        = some ArtNet.sampleConfig.channelCount ∧
      ArtNet.sampleConfig.channelCount % 2 = 0) :=
  ⟨by decide, by decide, by decide, by decide,
   artnet_header_layout ArtNet.sampleConfig true 1 (by decide) (by decide) (by decide) (by decide)⟩

/-- Helper: a sub-slice of a slice is a slice of the original list, as
long as it stays inside the outer slice. -/
theorem byteSlice_byteSlice (l : List Nat) (i n j m : Nat) (h : j + m ≤ n) :
    byteSlice (byteSlice l i n) j m = byteSlice l (i + j) m := by
  unfold byteSlice
  rw [List.drop_take, List.take_take, List.drop_drop]
  congr 1
  omega

/-- Helper: the per-universe output test, spelled out as the spec states
it: output when there is no snapshot yet, or when the universe's byte
range differs from the snapshot's. -/
theorem needX_iff (s : ArtNet.ArtNetOutputData) (buf : List Nat) (x : Nat) :
    s.needX buf x = true ↔
      (s.snapshot = none ∨
       ∃ snap, s.snapshot = some snap ∧
         byteSlice buf (s.startChannel - 1 + x * s.channelCount) s.channelCount ≠
           byteSlice snap (x * s.channelCount) s.channelCount) := by
  unfold ArtNet.ArtNetOutputData.needX ArtNet.NeedToOutputFrame
  cases hsnap : s.snapshot with
  | none => simp
  | some snap =>
    simp only [hsnap]
    constructor
    · intro hne
      right
      refine ⟨snap, rfl, ?_⟩
      intro heq
      simp [heq] at hne
    · rintro (hcontra | ⟨snap2, hsnap2, hne⟩)
      · exact absurd hcontra (by simp)
      · obtain rfl : snap = snap2 := by injection hsnap2
        simp [hne]

/-- Helper: `PrepareData` never changes the descriptor fields of the
sink. -/
theorem PrepareData_preserves (s : ArtNet.ArtNetOutputData) (buf : List Nat)
    (m : ArtNet.UDPOutputMessages) :
    ((s.PrepareData buf m).1).valid = s.valid ∧
    ((s.PrepareData buf m).1).active = s.active ∧
    ((s.PrepareData buf m).1).startChannel = s.startChannel ∧
    ((s.PrepareData buf m).1).channelCount = s.channelCount ∧
    ((s.PrepareData buf m).1).universeCount = s.universeCount := by
  unfold ArtNet.ArtNetOutputData.PrepareData
  split <;> simp

/-- Helper: the outcome of one `PrepareData` call on a valid, active
sink, written out. -/
theorem PrepareData_eq (s : ArtNet.ArtNetOutputData) (buf : List Nat)
    (m : ArtNet.UDPOutputMessages) (hv : s.valid = true) (ha : s.active = true) :
    s.PrepareData buf m =
      ({ s with
          sequenceNumber :=
            if (s.sequenceNumber + 1) % 256 = 0 then ((s.sequenceNumber + 1) % 256 + 1) % 256
            else (s.sequenceNumber + 1) % 256
          skippedFrames :=
            if (List.range s.universeCount).any (fun x => !(s.needX buf x)) then
              s.skippedFrames + 1
            else s.skippedFrames
          snapshot :=
            if (List.range s.universeCount).all (fun x => !(s.needX buf x)) then s.snapshot
            else some (byteSlice buf (s.startChannel - 1)
                        (s.universeCount * s.channelCount)) },
       { hasArtNetSocket := true, artnet := m.artnet ++ s.queuedMsgs buf }) := by
  unfold ArtNet.ArtNetOutputData.PrepareData
  rw [if_pos (by simp [hv, ha])]

/-- Helper: membership in the list of packets one `PrepareData` call
queues. -/
theorem mem_queuedMsgs_iff (s : ArtNet.ArtNetOutputData) (buf : List Nat)
    (x seqb : Nat) (pay : List Nat) :
    ArtNet.ArtNetMsg.data x seqb pay ∈ s.queuedMsgs buf ↔
      (x < s.universeCount ∧ s.needX buf x = true ∧ seqb = s.sequenceNumber ∧
       pay = byteSlice buf (s.startChannel - 1 + x * s.channelCount) s.channelCount) := by
  unfold ArtNet.ArtNetOutputData.queuedMsgs
  simp only [List.mem_map, List.mem_filter, List.mem_range]
  constructor
  · rintro ⟨y, ⟨hy, hneed⟩, heq⟩
    cases heq
    exact ⟨hy, hneed, rfl, rfl⟩
  · rintro ⟨hx, hneed, rfl, rfl⟩
    exact ⟨x, ⟨hx, hneed⟩, rfl⟩

/-- C3: a `PrepareData` call on a valid, active sink queues datagrams for
exactly the universes whose byte range differs from the stored snapshot
(plus every universe when there is no snapshot yet), each carrying the
current sequence byte and the universe's payload range; the
FrameSnapshot is overwritten with the byte range of the frame just
processed when at least one universe was queued, and is left unchanged
when every universe was skipped. -/
theorem artnet_preparedata_frame_diff
    (s : ArtNet.ArtNetOutputData) (buf : List Nat) (m : ArtNet.UDPOutputMessages)
    (hv : s.valid = true) (ha : s.active = true) :
    ∃ queued, ((s.PrepareData buf m).2).artnet = m.artnet ++ queued ∧
      (∀ x seqb pay, ArtNet.ArtNetMsg.data x seqb pay ∈ queued ↔
        (x < s.universeCount ∧
         (s.snapshot = none ∨
          ∃ snap, s.snapshot = some snap ∧
            byteSlice buf (s.startChannel - 1 + x * s.channelCount) s.channelCount ≠
              byteSlice snap (x * s.channelCount) s.channelCount) ∧
         seqb = s.sequenceNumber ∧
         pay = byteSlice buf (s.startChannel - 1 + x * s.channelCount) s.channelCount)) ∧
      ((∃ x seqb pay, ArtNet.ArtNetMsg.data x seqb pay ∈ queued) →
        ((s.PrepareData buf m).1).snapshot
          = some (byteSlice buf (s.startChannel - 1)
                   (s.universeCount * s.channelCount))) ∧
      ((¬ ∃ x seqb pay, ArtNet.ArtNetMsg.data x seqb pay ∈ queued) →
        ((s.PrepareData buf m).1).snapshot = s.snapshot) := by
  refine ⟨s.queuedMsgs buf, ?_, ?_, ?_, ?_⟩
  · rw [PrepareData_eq s buf m hv ha]
  · intro x seqb pay
    rw [mem_queuedMsgs_iff, needX_iff]
  · rintro ⟨x, seqb, pay, hmem⟩
    rw [mem_queuedMsgs_iff] at hmem
    obtain ⟨hx, hneed, -, -⟩ := hmem
    have hall : ((List.range s.universeCount).all (fun y => !(s.needX buf y))) = false := by
      apply Bool.eq_false_iff.mpr
      intro hcontra
      have := List.all_eq_true.mp hcontra x (List.mem_range.mpr hx)
      simp [hneed] at this
    rw [PrepareData_eq s buf m hv ha]
    simp [hall]
  · intro hnone
    have hall : ((List.range s.universeCount).all (fun y => !(s.needX buf y))) = true := by
      rw [List.all_eq_true]
      intro y hy
      rw [List.mem_range] at hy
      by_contra hfalse
      apply hnone
      refine ⟨y, s.sequenceNumber,
        byteSlice buf (s.startChannel - 1 + y * s.channelCount) s.channelCount, ?_⟩
      rw [mem_queuedMsgs_iff]
      exact ⟨hy, by simpa using hfalse, rfl, rfl⟩
    rw [PrepareData_eq s buf m hv ha]
    simp [hall]

/-- Witness for C3: a freshly constructed sink on a concrete buffer. -/
theorem artnet_preparedata_frame_diff_witness :
    (ArtNet.ArtNetOutputData.construct ArtNet.sampleConfig true).valid = true ∧
    (ArtNet.ArtNetOutputData.construct ArtNet.sampleConfig true).active = true ∧
    (∃ queued,
      (((ArtNet.ArtNetOutputData.construct ArtNet.sampleConfig true).PrepareData
          (List.replicate 30 7) { hasArtNetSocket := false, artnet := [] }).2).artnet
        = ({ hasArtNetSocket := false, artnet := [] } :
            ArtNet.UDPOutputMessages).artnet ++ queued ∧
      (∀ x seqb pay, ArtNet.ArtNetMsg.data x seqb pay ∈ queued ↔
        (x < (ArtNet.ArtNetOutputData.construct ArtNet.sampleConfig true).universeCount ∧
         ((ArtNet.ArtNetOutputData.construct ArtNet.sampleConfig true).snapshot = none ∨
          ∃ snap, (ArtNet.ArtNetOutputData.construct ArtNet.sampleConfig true).snapshot = some snap ∧
            byteSlice (List.replicate 30 7)
                ((ArtNet.ArtNetOutputData.construct ArtNet.sampleConfig true).startChannel - 1 +
                  x * (ArtNet.ArtNetOutputData.construct ArtNet.sampleConfig true).channelCount)
                (ArtNet.ArtNetOutputData.construct ArtNet.sampleConfig true).channelCount ≠
              byteSlice snap
                (x * (ArtNet.ArtNetOutputData.construct ArtNet.sampleConfig true).channelCount)
                (ArtNet.ArtNetOutputData.construct ArtNet.sampleConfig true).channelCount) ∧
         seqb = (ArtNet.ArtNetOutputData.construct ArtNet.sampleConfig true).sequenceNumber ∧
         pay = byteSlice (List.replicate 30 7)
                ((ArtNet.ArtNetOutputData.construct ArtNet.sampleConfig true).startChannel - 1 +
                  x * (ArtNet.ArtNetOutputData.construct ArtNet.sampleConfig true).channelCount)
                (ArtNet.ArtNetOutputData.construct ArtNet.sampleConfig true).channelCount)) ∧
      ((∃ x seqb pay, ArtNet.ArtNetMsg.data x seqb pay ∈ queued) →
        (((ArtNet.ArtNetOutputData.construct ArtNet.sampleConfig true).PrepareData
            (List.replicate 30 7) { hasArtNetSocket := false, artnet := [] }).1).snapshot
          = some (byteSlice (List.replicate 30 7)
                   ((ArtNet.ArtNetOutputData.construct ArtNet.sampleConfig true).startChannel - 1)
                   ((ArtNet.ArtNetOutputData.construct ArtNet.sampleConfig true).universeCount *
                     (ArtNet.ArtNetOutputData.construct ArtNet.sampleConfig true).channelCount))) ∧
      ((¬ ∃ x seqb pay, ArtNet.ArtNetMsg.data x seqb pay ∈ queued) →
        (((ArtNet.ArtNetOutputData.construct ArtNet.sampleConfig true).PrepareData
            (List.replicate 30 7) { hasArtNetSocket := false, artnet := [] }).1).snapshot
          = (ArtNet.ArtNetOutputData.construct ArtNet.sampleConfig true).snapshot)) :=
  ⟨rfl, rfl,
   artnet_preparedata_frame_diff (ArtNet.ArtNetOutputData.construct ArtNet.sampleConfig true)
     (List.replicate 30 7) { hasArtNetSocket := false, artnet := [] } rfl rfl⟩

/-- C2: if universe `x`'s byte range in the show buffer handed to the
second of two consecutive `PrepareData` calls is identical to the
snapshot the first call stored, the second call queues no datagram for
universe `x` and the skipped-frame counter increments by exactly one on
that call. -/
theorem artnet_skip_unchanged_universe
    (s0 : ArtNet.ArtNetOutputData) (buf1 buf2 : List Nat)
    (m1 m2 : ArtNet.UDPOutputMessages) (x : Nat)
    (hv : s0.valid = true) (ha : s0.active = true)
    (hx : x < s0.universeCount)
    (hstore : ∃ y, y < s0.universeCount ∧ s0.needX buf1 y = true)
    (heq : byteSlice buf2 (s0.startChannel - 1 + x * s0.channelCount) s0.channelCount
         = byteSlice buf1 (s0.startChannel - 1 + x * s0.channelCount) s0.channelCount) :
    ∃ queued,
      ((((s0.PrepareData buf1 m1).1).PrepareData buf2 m2).2).artnet
        = m2.artnet ++ queued ∧
      (∀ seqb pay, ArtNet.ArtNetMsg.data x seqb pay ∉ queued) ∧
      ((((s0.PrepareData buf1 m1).1).PrepareData buf2 m2).1).skippedFrames
        = ((s0.PrepareData buf1 m1).1).skippedFrames + 1 := by
  obtain ⟨hval, hact, hsc, hcc, huc⟩ := PrepareData_preserves s0 buf1 m1
  have hv1 : ((s0.PrepareData buf1 m1).1).valid = true := by rw [hval, hv]
  have ha1 : ((s0.PrepareData buf1 m1).1).active = true := by rw [hact, ha]
  have hall1 : ((List.range s0.universeCount).all (fun y => !(s0.needX buf1 y))) = false := by
    obtain ⟨y, hy, hneed⟩ := hstore
    apply Bool.eq_false_iff.mpr
    intro hcontra
    have := List.all_eq_true.mp hcontra y (List.mem_range.mpr hy)
    simp [hneed] at this
  have hs1snap : ((s0.PrepareData buf1 m1).1).snapshot
      = some (byteSlice buf1 (s0.startChannel - 1)
               (s0.universeCount * s0.channelCount)) := by
    rw [PrepareData_eq s0 buf1 m1 hv ha]
    simp [hall1]
  have hbound : x * s0.channelCount + s0.channelCount
      ≤ s0.universeCount * s0.channelCount := by
    have h1 : x + 1 ≤ s0.universeCount := hx
    calc x * s0.channelCount + s0.channelCount = (x + 1) * s0.channelCount := by ring
    _ ≤ s0.universeCount * s0.channelCount := Nat.mul_le_mul_right _ h1
  have hneedx : ((s0.PrepareData buf1 m1).1).needX buf2 x = false := by
    apply Bool.eq_false_iff.mpr
    intro htrue
    rcases (needX_iff _ buf2 x).mp htrue with hnone | ⟨snap, hsnap, hne⟩
    · rw [hs1snap] at hnone
      exact Option.noConfusion hnone
    · rw [hs1snap] at hsnap
      injection hsnap with hsnapeq
      subst hsnapeq
      rw [hsc, hcc] at hne
      apply hne
      rw [byteSlice_byteSlice buf1 (s0.startChannel - 1)
        (s0.universeCount * s0.channelCount) (x * s0.channelCount) s0.channelCount hbound]
      exact heq
  refine ⟨((s0.PrepareData buf1 m1).1).queuedMsgs buf2, ?_, ?_, ?_⟩
  · rw [PrepareData_eq _ buf2 m2 hv1 ha1]
  · intro seqb pay hmem
    rw [mem_queuedMsgs_iff] at hmem
    obtain ⟨-, hneed, -, -⟩ := hmem
    rw [hneedx] at hneed
    exact Bool.false_ne_true hneed
  · rw [PrepareData_eq _ buf2 m2 hv1 ha1]
    have hany : ((List.range ((s0.PrepareData buf1 m1).1).universeCount).any
        (fun y => !(((s0.PrepareData buf1 m1).1).needX buf2 y))) = true := by
      rw [List.any_eq_true]
      exact ⟨x, List.mem_range.mpr (huc ▸ hx), by simp [hneedx]⟩
    simp [hany]

/-- Witness for C2: two calls with the same concrete buffer; universe 1
is unchanged, so the second call queues nothing for it and bumps the
skipped-frame counter once. -/
theorem artnet_skip_unchanged_universe_witness :
    (ArtNet.ArtNetOutputData.construct ArtNet.sampleConfig true).valid = true ∧
    (ArtNet.ArtNetOutputData.construct ArtNet.sampleConfig true).active = true ∧
    1 < (ArtNet.ArtNetOutputData.construct ArtNet.sampleConfig true).universeCount ∧
    (∃ y, y < (ArtNet.ArtNetOutputData.construct ArtNet.sampleConfig true).universeCount ∧
      (ArtNet.ArtNetOutputData.construct ArtNet.sampleConfig true).needX
        (List.replicate 30 7) y = true) ∧
    (∃ queued,
      (((((ArtNet.ArtNetOutputData.construct ArtNet.sampleConfig true).PrepareData
            (List.replicate 30 7) { hasArtNetSocket := false, artnet := [] }).1).PrepareData
          (List.replicate 30 7) { hasArtNetSocket := true, artnet := [] }).2).artnet
        = ({ hasArtNetSocket := true, artnet := [] } :
            ArtNet.UDPOutputMessages).artnet ++ queued ∧
      (∀ seqb pay, ArtNet.ArtNetMsg.data 1 seqb pay ∉ queued) ∧
      (((((ArtNet.ArtNetOutputData.construct ArtNet.sampleConfig true).PrepareData
            (List.replicate 30 7) { hasArtNetSocket := false, artnet := [] }).1).PrepareData
          (List.replicate 30 7) { hasArtNetSocket := true, artnet := [] }).1).skippedFrames
        = ((((ArtNet.ArtNetOutputData.construct ArtNet.sampleConfig true).PrepareData
            (List.replicate 30 7) { hasArtNetSocket := false, artnet := [] }).1)).skippedFrames
          + 1) :=
  ⟨rfl, rfl, by decide, ⟨0, by decide, by decide⟩,
   artnet_skip_unchanged_universe (ArtNet.ArtNetOutputData.construct ArtNet.sampleConfig true)
     (List.replicate 30 7) (List.replicate 30 7)
     { hasArtNetSocket := false, artnet := [] } { hasArtNetSocket := true, artnet := [] }
     1 rfl rfl (by decide) ⟨0, by decide, by decide⟩ rfl⟩

/-- Helper: on a valid, active sink, one `PrepareData` call advances the
sequence counter by one, wrapping from 255 back to 1. -/
theorem sequence_advance (s : ArtNet.ArtNetOutputData) (buf : List Nat)
    (m : ArtNet.UDPOutputMessages) (hv : s.valid = true) (ha : s.active = true)
    (h1 : 1 ≤ s.sequenceNumber) (h2 : s.sequenceNumber ≤ 255) :
    ((s.PrepareData buf m).1).sequenceNumber
      = if s.sequenceNumber = 255 then 1 else s.sequenceNumber + 1 := by
  rw [PrepareData_eq s buf m hv ha]
  by_cases h255 : s.sequenceNumber = 255
  · simp only [h255]
    norm_num
  · have hlt : s.sequenceNumber + 1 < 256 := by omega
    have hmod : (s.sequenceNumber + 1) % 256 = s.sequenceNumber + 1 := Nat.mod_eq_of_lt hlt
    simp only [hmod, h255, if_false]
    have : ¬ (s.sequenceNumber + 1 = 0) := by omega
    simp [this]

/-- Helper: the 1..255 bound on the sequence counter is preserved by any
`PrepareData` call. -/
theorem sequence_bounds_step (s : ArtNet.ArtNetOutputData) (buf : List Nat)
    (m : ArtNet.UDPOutputMessages)
    (h1 : 1 ≤ s.sequenceNumber) (h2 : s.sequenceNumber ≤ 255) :
    1 ≤ ((s.PrepareData buf m).1).sequenceNumber ∧
    ((s.PrepareData buf m).1).sequenceNumber ≤ 255 := by
  unfold ArtNet.ArtNetOutputData.PrepareData
  split
  · simp only
    by_cases h255 : s.sequenceNumber = 255
    · simp [h255]
    · have hlt : s.sequenceNumber + 1 < 256 := by omega
      have hmod : (s.sequenceNumber + 1) % 256 = s.sequenceNumber + 1 := Nat.mod_eq_of_lt hlt
      simp only [hmod]
      have : ¬ (s.sequenceNumber + 1 = 0) := by omega
      simp [this]
      omega
  · exact ⟨h1, h2⟩

/-- Helper: the 1..255 bound on the sequence counter holds after any run
of consecutive `PrepareData` calls from a state satisfying it. -/
theorem sequence_bounds_run (bufs : List (List Nat)) (s : ArtNet.ArtNetOutputData)
    (h1 : 1 ≤ s.sequenceNumber) (h2 : s.sequenceNumber ≤ 255) :
    1 ≤ (ArtNet.runPrepare s bufs).sequenceNumber ∧
    (ArtNet.runPrepare s bufs).sequenceNumber ≤ 255 := by
  induction bufs generalizing s with
  | nil => exact ⟨h1, h2⟩
  | cons b bs ih =>
    have hstep := sequence_bounds_step s b { hasArtNetSocket := false, artnet := [] } h1 h2
    exact ih _ hstep.1 hstep.2

/-- C5: the shared sequence counter starts at 1, stays in 1..255 across
any number of consecutive `PrepareData` calls, advances by one per
(valid, active) call wrapping from 255 back to 1 and skipping 0, and
every packet queued by the next call carries a sequence byte in 1..255,
never 0. -/
theorem artnet_sequence_cycle (cfg : ArtNet.ArtNetConfig) (resolved : Bool)
    (bufs : List (List Nat)) (buf : List Nat) (m : ArtNet.UDPOutputMessages) :
    (ArtNet.ArtNetOutputData.construct cfg resolved).sequenceNumber = 1 ∧
    (1 ≤ (ArtNet.runPrepare (ArtNet.ArtNetOutputData.construct cfg resolved) bufs).sequenceNumber ∧
     (ArtNet.runPrepare (ArtNet.ArtNetOutputData.construct cfg resolved) bufs).sequenceNumber ≤ 255) ∧
    ((ArtNet.runPrepare (ArtNet.ArtNetOutputData.construct cfg resolved) bufs).valid = true →
     (ArtNet.runPrepare (ArtNet.ArtNetOutputData.construct cfg resolved) bufs).active = true →
      (((ArtNet.runPrepare (ArtNet.ArtNetOutputData.construct cfg resolved) bufs).PrepareData
          buf m).1).sequenceNumber
        = if (ArtNet.runPrepare (ArtNet.ArtNetOutputData.construct cfg resolved) bufs).sequenceNumber
             = 255 then 1
          else (ArtNet.runPrepare (ArtNet.ArtNetOutputData.construct cfg resolved) bufs).sequenceNumber
               + 1) ∧
    (∀ x seqb pay,
      ArtNet.ArtNetMsg.data x seqb pay ∈
        ((((ArtNet.runPrepare (ArtNet.ArtNetOutputData.construct cfg resolved) bufs).PrepareData
            buf m).2).artnet) →
      ArtNet.ArtNetMsg.data x seqb pay ∈ m.artnet ∨ (1 ≤ seqb ∧ seqb ≤ 255)) := by
  have hinit : (ArtNet.ArtNetOutputData.construct cfg resolved).sequenceNumber = 1 := rfl
  have hrun := sequence_bounds_run bufs (ArtNet.ArtNetOutputData.construct cfg resolved)
    (by rw [hinit]) (by rw [hinit]; omega)
  refine ⟨hinit, hrun, ?_, ?_⟩
  · intro hv ha
    exact sequence_advance _ buf m hv ha hrun.1 hrun.2
  · intro x seqb pay hmem
    by_cases hact : (ArtNet.runPrepare (ArtNet.ArtNetOutputData.construct cfg resolved)
        bufs).valid = true ∧
        (ArtNet.runPrepare (ArtNet.ArtNetOutputData.construct cfg resolved) bufs).active = true
    · rw [PrepareData_eq _ buf m hact.1 hact.2] at hmem
      simp only [List.mem_append] at hmem
      rcases hmem with hmem | hmem
      · exact Or.inl hmem
      · rw [mem_queuedMsgs_iff] at hmem
        obtain ⟨-, -, hseq, -⟩ := hmem
        right
        rw [hseq]
        exact hrun
    · left
      unfold ArtNet.ArtNetOutputData.PrepareData at hmem
      rw [if_neg (by
        intro hand
        exact hact ⟨(Bool.and_eq_true _ _).mp hand |>.1, (Bool.and_eq_true _ _).mp hand |>.2⟩)]
        at hmem
      exact hmem

/-- Witness for C5: the concrete sample sink after two frames. -/
theorem artnet_sequence_cycle_witness :
    (ArtNet.ArtNetOutputData.construct ArtNet.sampleConfig true).sequenceNumber = 1 ∧
    (1 ≤ (ArtNet.runPrepare (ArtNet.ArtNetOutputData.construct ArtNet.sampleConfig true)
            [List.replicate 30 7]).sequenceNumber ∧
     (ArtNet.runPrepare (ArtNet.ArtNetOutputData.construct ArtNet.sampleConfig true)
            [List.replicate 30 7]).sequenceNumber ≤ 255) ∧
    ((ArtNet.runPrepare (ArtNet.ArtNetOutputData.construct ArtNet.sampleConfig true)
        [List.replicate 30 7]).valid = true →
     (ArtNet.runPrepare (ArtNet.ArtNetOutputData.construct ArtNet.sampleConfig true)
        [List.replicate 30 7]).active = true →
      (((ArtNet.runPrepare (ArtNet.ArtNetOutputData.construct ArtNet.sampleConfig true)
          [List.replicate 30 7]).PrepareData (List.replicate 30 9)
          { hasArtNetSocket := false, artnet := [] }).1).sequenceNumber
        = if (ArtNet.runPrepare (ArtNet.ArtNetOutputData.construct ArtNet.sampleConfig true)
               [List.replicate 30 7]).sequenceNumber = 255 then 1
          else (ArtNet.runPrepare (ArtNet.ArtNetOutputData.construct ArtNet.sampleConfig true)
               [List.replicate 30 7]).sequenceNumber + 1) ∧
    (∀ x seqb pay,
      ArtNet.ArtNetMsg.data x seqb pay ∈
        ((((ArtNet.runPrepare (ArtNet.ArtNetOutputData.construct ArtNet.sampleConfig true)
            [List.replicate 30 7]).PrepareData (List.replicate 30 9)
            { hasArtNetSocket := false, artnet := [] }).2).artnet) →
      ArtNet.ArtNetMsg.data x seqb pay ∈
        ({ hasArtNetSocket := false, artnet := [] } : ArtNet.UDPOutputMessages).artnet ∨
        (1 ≤ seqb ∧ seqb ≤ 255)) :=
  artnet_sequence_cycle ArtNet.sampleConfig true [List.replicate 30 7]
    (List.replicate 30 9) { hasArtNetSocket := false, artnet := [] }

/-- Helper: the scan in `PostPrepareData` finds a synchronization packet
exactly when the batch holds at least one. -/
theorem any_isSync_iff (l : List ArtNet.ArtNetMsg) :
    (l.any (fun msg => msg.isSync)) = true ↔ ArtNet.countSync l ≠ 0 := by
  unfold ArtNet.countSync
  rw [List.any_eq_true]
  constructor
  · rintro ⟨a, hmem, hs⟩ h0
    rw [List.length_eq_zero] at h0
    have hin := List.mem_filter.mpr ⟨hmem, hs⟩
    rw [h0] at hin
    cases hin
  · intro hne
    have hpos : 0 < (l.filter (fun msg => msg.isSync)).length := Nat.pos_of_ne_zero hne
    obtain ⟨a, hin⟩ := List.exists_mem_of_length_pos hpos
    obtain ⟨hmem, hs⟩ := List.mem_filter.mp hin
    exact ⟨a, hmem, hs⟩

/-- Helper: once a synchronization packet is pending, `PostPrepareData`
is the identity, whatever the sink's state. -/
theorem post_noop (s : ArtNet.ArtNetOutputData) (m : ArtNet.UDPOutputMessages)
    (h : ArtNet.countSync m.artnet ≠ 0) : s.PostPrepareData m = m := by
  unfold ArtNet.ArtNetOutputData.PostPrepareData
  split
  · rw [if_pos ((any_isSync_iff m.artnet).mpr h)]
  · rfl

/-- Helper: a fold of `PostPrepareData` calls is the identity once a
synchronization packet is pending. -/
theorem foldl_post_noop (sinks : List ArtNet.ArtNetOutputData)
    (m : ArtNet.UDPOutputMessages) (h : ArtNet.countSync m.artnet ≠ 0) :
    sinks.foldl (fun mm s => s.PostPrepareData mm) m = m := by
  induction sinks with
  | nil => rfl
  | cons s rest ih =>
    simp only [List.foldl_cons, post_noop s m h, ih]

/-- Helper: on a sync-free batch, a valid, active sink appends exactly
one synchronization packet. -/
theorem post_append (s : ArtNet.ArtNetOutputData) (m : ArtNet.UDPOutputMessages)
    (hv : s.valid = true) (ha : s.active = true)
    (h0 : ArtNet.countSync m.artnet = 0) :
    s.PostPrepareData m = { m with artnet := m.artnet ++ [ArtNet.ArtNetMsg.sync] } := by
  unfold ArtNet.ArtNetOutputData.PostPrepareData
  rw [if_pos (by simp [hv, ha])]
  rw [if_neg (by
    intro hany
    exact (any_isSync_iff m.artnet).mp hany h0)]

/-- Helper: appending the synchronization packet raises the sync count by
one. -/
theorem countSync_append_sync (l : List ArtNet.ArtNetMsg) :
    ArtNet.countSync (l ++ [ArtNet.ArtNetMsg.sync]) = ArtNet.countSync l + 1 := by
  unfold ArtNet.countSync
  rw [List.filter_append]
  simp [ArtNet.ArtNetMsg.isSync]

/-- C4: within one tick, after any positive number of valid, active sinks
of the protocol run `PostPrepareData` against the same (initially
sync-free) batch, the batch holds exactly one synchronization packet,
and any later `PostPrepareData` call in the tick appends nothing. -/
theorem artnet_sync_packet_unique (sinks : List ArtNet.ArtNetOutputData)
    (m : ArtNet.UDPOutputMessages)
    (hne : sinks ≠ [])
    (hva : ∀ s ∈ sinks, s.valid = true ∧ s.active = true)
    (h0 : ArtNet.countSync m.artnet = 0) :
    ArtNet.countSync ((sinks.foldl (fun mm s => s.PostPrepareData mm) m).artnet) = 1 ∧
    (∀ s2 : ArtNet.ArtNetOutputData,
      s2.PostPrepareData (sinks.foldl (fun mm s => s.PostPrepareData mm) m)
        = sinks.foldl (fun mm s => s.PostPrepareData mm) m) := by
  obtain ⟨s, rest, rfl⟩ : ∃ s rest, sinks = s :: rest := by
    cases sinks with
    | nil => exact absurd rfl hne
    | cons s rest => exact ⟨s, rest, rfl⟩
  have hs := hva s (List.mem_cons_self s rest)
  have hm1 : s.PostPrepareData m = { m with artnet := m.artnet ++ [ArtNet.ArtNetMsg.sync] } :=
    post_append s m hs.1 hs.2 h0
  have hcount1 : ArtNet.countSync ((s.PostPrepareData m).artnet) = 1 := by
    rw [hm1]
    simpa [countSync_append_sync] using h0
  have hfold : (s :: rest).foldl (fun mm s2 => s2.PostPrepareData mm) m
      = s.PostPrepareData m := by
    rw [List.foldl_cons]
    exact foldl_post_noop rest _ (by rw [hcount1]; omega)
  refine ⟨?_, ?_⟩
  · rw [hfold, hcount1]
  · intro s2
    rw [hfold]
    exact post_noop s2 _ (by rw [hcount1]; omega)

/-- Witness for C4: two concrete valid, active sinks and an empty batch. -/
theorem artnet_sync_packet_unique_witness :
    ([ArtNet.ArtNetOutputData.construct ArtNet.sampleConfig true,
      ArtNet.ArtNetOutputData.construct ArtNet.sampleConfig true] ≠
        ([] : List ArtNet.ArtNetOutputData)) ∧
    (∀ s ∈ [ArtNet.ArtNetOutputData.construct ArtNet.sampleConfig true,
            ArtNet.ArtNetOutputData.construct ArtNet.sampleConfig true],
        s.valid = true ∧ s.active = true) ∧
    ArtNet.countSync ({ hasArtNetSocket := true, artnet := [] } :
        ArtNet.UDPOutputMessages).artnet = 0 ∧
    (ArtNet.countSync
      (([ArtNet.ArtNetOutputData.construct ArtNet.sampleConfig true,
         ArtNet.ArtNetOutputData.construct ArtNet.sampleConfig true].foldl
          (fun mm s => s.PostPrepareData mm)
          ({ hasArtNetSocket := true, artnet := [] } : ArtNet.UDPOutputMessages)).artnet) = 1 ∧
     (∀ s2 : ArtNet.ArtNetOutputData, s2.PostPrepareData
        ([ArtNet.ArtNetOutputData.construct ArtNet.sampleConfig true,
          ArtNet.ArtNetOutputData.construct ArtNet.sampleConfig true].foldl
           (fun mm s => s.PostPrepareData mm)
           ({ hasArtNetSocket := true, artnet := [] } : ArtNet.UDPOutputMessages))
        = [ArtNet.ArtNetOutputData.construct ArtNet.sampleConfig true,
           ArtNet.ArtNetOutputData.construct ArtNet.sampleConfig true].foldl
            (fun mm s => s.PostPrepareData mm)
            ({ hasArtNetSocket := true, artnet := [] } : ArtNet.UDPOutputMessages))) :=
  ⟨by decide, by decide, rfl,
   artnet_sync_packet_unique
     [ArtNet.ArtNetOutputData.construct ArtNet.sampleConfig true,
      ArtNet.ArtNetOutputData.construct ArtNet.sampleConfig true]
     ({ hasArtNetSocket := true, artnet := [] } : ArtNet.UDPOutputMessages)
     (by decide) (by decide) rfl⟩

/-- Helper: a sink whose `valid` flag is cleared ignores every
dispatch-loop interaction: no socket is created, no packet is queued,
and the sink state does not change. -/
theorem applyOp_noop (s : ArtNet.ArtNetOutputData) (m : ArtNet.UDPOutputMessages)
    (op : ArtNet.SinkOp) (hv : s.valid = false) :
    ArtNet.applyOp (s, m) op = (s, m) := by
  cases op with
  | prep buf =>
    show s.PrepareData buf m = (s, m)
    unfold ArtNet.ArtNetOutputData.PrepareData
    rw [if_neg (by simp [hv])]
  | post =>
    show (s, s.PostPrepareData m) = (s, m)
    unfold ArtNet.ArtNetOutputData.PostPrepareData
    rw [if_neg (by simp [hv])]

/-- Helper: a sink whose `valid` flag is cleared stays inert across any
sequence of dispatch-loop interactions. -/
theorem runOps_noop (ops : List ArtNet.SinkOp) (s : ArtNet.ArtNetOutputData)
    (m : ArtNet.UDPOutputMessages) (hv : s.valid = false) :
    ArtNet.runOps (s, m) ops = (s, m) := by
  induction ops with
  | nil => rfl
  | cons op rest ih =>
    show ArtNet.runOps (ArtNet.applyOp (s, m) op) rest = (s, m)
    rw [applyOp_noop s m op hv]
    exact ih

/-- C6: a unicast sink whose hostname fails to resolve at construction
ends construction with `valid = false` and `active = false`, and any
number of subsequent `PrepareData` / `PostPrepareData` calls leaves both
the sink and the message batch untouched: zero packets are queued and no
socket is created. -/
theorem artnet_unresolved_unicast_inert (cfg : ArtNet.ArtNetConfig)
    (htype : cfg.type = 3) :
    (ArtNet.ArtNetOutputData.construct cfg false).valid = false ∧
    (ArtNet.ArtNetOutputData.construct cfg false).active = false ∧
    (∀ ops m, ArtNet.runOps (ArtNet.ArtNetOutputData.construct cfg false, m) ops
        = (ArtNet.ArtNetOutputData.construct cfg false, m)) := by
  have hv : (ArtNet.ArtNetOutputData.construct cfg false).valid = false := by
    unfold ArtNet.ArtNetOutputData.construct
    simp [htype]
  refine ⟨hv, ?_, ?_⟩
  · unfold ArtNet.ArtNetOutputData.construct
    simp only [htype]
    cases cfg.activeCfg <;> simp
  · intro ops m
    exact runOps_noop ops _ m hv

/-- Witness for C6: the sample unicast configuration with failing
resolution, run through a prepare and a post call. -/
theorem artnet_unresolved_unicast_inert_witness :
    ArtNet.sampleUnicastConfig.type = 3 ∧
    ((ArtNet.ArtNetOutputData.construct ArtNet.sampleUnicastConfig false).valid = false ∧
     (ArtNet.ArtNetOutputData.construct ArtNet.sampleUnicastConfig false).active = false ∧
     (∀ ops m, ArtNet.runOps
         (ArtNet.ArtNetOutputData.construct ArtNet.sampleUnicastConfig false, m) ops
       = (ArtNet.ArtNetOutputData.construct ArtNet.sampleUnicastConfig false, m))) :=
  ⟨rfl, artnet_unresolved_unicast_inert ArtNet.sampleUnicastConfig rfl⟩

/-- Helper: `SendData` only ever changes the page parity flag and the
panned offset. -/
theorem sendN_preserves (s : FB.FBMatrixOutput) (n : Nat) :
    (FB.FBMatrixOutput.sendN s n).isDoubleBuffered = s.isDoubleBuffered ∧
    (FB.FBMatrixOutput.sendN s n).yres = s.yres ∧
    (FB.FBMatrixOutput.sendN s n).screenSize = s.screenSize := by
  induction n with
  | zero => exact ⟨rfl, rfl, rfl⟩
  | succ k ih =>
    show ((FB.FBMatrixOutput.sendN s k).SendData).1.isDoubleBuffered = _ ∧ _ ∧ _
    unfold FB.FBMatrixOutput.SendData
    exact ih

/-- Helper: starting from the post-`Init` state (`m_topFrame = true`),
the page parity flag after `n` calls records the parity of `n`. -/
theorem sendN_topFrame (s : FB.FBMatrixOutput) (htop : s.topFrame = true) (n : Nat) :
    (FB.FBMatrixOutput.sendN s n).topFrame = decide (n % 2 = 0) := by
  induction n with
  | zero => simpa using htop
  | succ k ih =>
    show ((FB.FBMatrixOutput.sendN s k).SendData).1.topFrame = _
    unfold FB.FBMatrixOutput.SendData
    simp only [ih]
    by_cases h2 : k % 2 = 0
    · have : ¬ ((k + 1) % 2 = 0) := by omega
      simp [h2, this]
    · have : (k + 1) % 2 = 0 := by omega
      simp [h2, this]

/-- C7: from a successfully initialised framebuffer sink: with double
buffering active, consecutive `SendData` calls write alternating halves
of the mapped region and the display is panned to the half just
written, so the half the next call writes is never the displayed one;
with double buffering inactive, every call writes the same region
(offset 0). -/
theorem fb_senddata_buffering (s : FB.FBMatrixOutput) (htop : s.topFrame = true) :
    (s.isDoubleBuffered = true →
      ∀ n, FB.FBMatrixOutput.writtenHalf s n ≠ FB.FBMatrixOutput.writtenHalf s (n + 1) ∧
        (FB.FBMatrixOutput.sendN s (n + 1)).displayedYoffset
          = some (if FB.FBMatrixOutput.writtenHalf s n = true then s.yres else 0)) ∧
    (s.isDoubleBuffered = false →
      ∀ n, FB.FBMatrixOutput.writtenHalf s n = false) := by
  have hhalf : ∀ n, FB.FBMatrixOutput.writtenHalf s n
      = (s.isDoubleBuffered && !(decide (n % 2 = 0))) := by
    intro n
    unfold FB.FBMatrixOutput.writtenHalf FB.FBMatrixOutput.SendData
    rw [(sendN_preserves s n).1, sendN_topFrame s htop n]
  constructor
  · intro hdb n
    constructor
    · rw [hhalf n, hhalf (n + 1), hdb]
      by_cases h2 : n % 2 = 0
      · have : ¬ ((n + 1) % 2 = 0) := by omega
        simp [h2, this]
      · have : (n + 1) % 2 = 0 := by omega
        simp [h2, this]
    · show ((FB.FBMatrixOutput.sendN s n).SendData).1.displayedYoffset = _
      unfold FB.FBMatrixOutput.SendData
      simp only [(sendN_preserves s n).1, (sendN_preserves s n).2.1, hdb]
      rw [show FB.FBMatrixOutput.writtenHalf s n
          = ((FB.FBMatrixOutput.sendN s n).isDoubleBuffered &&
             !(FB.FBMatrixOutput.sendN s n).topFrame) from rfl]
      simp [(sendN_preserves s n).1, hdb]
  · intro hdb n
    rw [hhalf n, hdb]
    rfl

/-- Witness for C7: a concrete double-buffered post-`Init` state. -/
theorem fb_senddata_buffering_witness :
    ({ isDoubleBuffered := true, topFrame := true, screenSize := 64, yres := 4,
       displayedYoffset := none } : FB.FBMatrixOutput).topFrame = true ∧
    ((({ isDoubleBuffered := true, topFrame := true, screenSize := 64, yres := 4,
         displayedYoffset := none } : FB.FBMatrixOutput).isDoubleBuffered = true →
      ∀ n, FB.FBMatrixOutput.writtenHalf
             ({ isDoubleBuffered := true, topFrame := true, screenSize := 64, yres := 4,
                displayedYoffset := none } : FB.FBMatrixOutput) n
           ≠ FB.FBMatrixOutput.writtenHalf
             ({ isDoubleBuffered := true, topFrame := true, screenSize := 64, yres := 4,
                displayedYoffset := none } : FB.FBMatrixOutput) (n + 1) ∧
        (FB.FBMatrixOutput.sendN
           ({ isDoubleBuffered := true, topFrame := true, screenSize := 64, yres := 4,
              displayedYoffset := none } : FB.FBMatrixOutput) (n + 1)).displayedYoffset
          = some (if FB.FBMatrixOutput.writtenHalf
                       ({ isDoubleBuffered := true, topFrame := true, screenSize := 64,
                          yres := 4, displayedYoffset := none } : FB.FBMatrixOutput) n = true
                  then ({ isDoubleBuffered := true, topFrame := true, screenSize := 64,
                          yres := 4, displayedYoffset := none } : FB.FBMatrixOutput).yres
                  else 0)) ∧
     (({ isDoubleBuffered := true, topFrame := true, screenSize := 64, yres := 4,
         displayedYoffset := none } : FB.FBMatrixOutput).isDoubleBuffered = false →
      ∀ n, FB.FBMatrixOutput.writtenHalf
             ({ isDoubleBuffered := true, topFrame := true, screenSize := 64, yres := 4,
                displayedYoffset := none } : FB.FBMatrixOutput) n = false)) :=
  ⟨rfl, fb_senddata_buffering
    ({ isDoubleBuffered := true, topFrame := true, screenSize := 64, yres := 4,
       displayedYoffset := none } : FB.FBMatrixOutput) rfl⟩

/-- Helper: whenever the configured channel count is not
`width * height * 3`, `Init` fails, whatever the device does. -/
theorem FBInit_fail_of_badcount (cfg : FB.FBConfig) (dev : FB.FBDevice)
    (hmis : cfg.channelCount ≠ cfg.width * cfg.height * 3) :
    (FB.FBInit cfg dev).1 = 0 := by
  unfold FB.FBInit FB.FBInitAfterPut
  split_ifs <;> simp_all

/-- C10: `Init` fails (returns 0) whenever the configured channel count
differs from `width * height * 3`; when the device survives every
earlier check, that failure path restores the original display mode and
closes the device; consequently every successfully initialised
framebuffer sink satisfies `channelCount = width * height * 3`. -/
theorem fb_init_channelcount (cfg : FB.FBConfig) (dev : FB.FBDevice)
    (hmis : cfg.channelCount ≠ cfg.width * cfg.height * 3) :
    (FB.FBInit cfg dev).1 = 0 ∧
    ((dev.openOk = true ∧ dev.getVInfoOk = true ∧
      (dev.bpp = 32 ∨ dev.bpp = 24 ∨ dev.bpp = 16) ∧
      (dev.putVInfoDoubleOk = true ∨ dev.putVInfoSingleOk = true) ∧
      dev.getFInfoOk = true) →
      (FB.FBInit cfg dev).2.1 = [FB.FBAction.restoreOrigMode, FB.FBAction.closeDevice]) ∧
    (∀ cfg2 dev2, (FB.FBInit cfg2 dev2).1 ≠ 0 →
      cfg2.channelCount = cfg2.width * cfg2.height * 3) := by
  refine ⟨FBInit_fail_of_badcount cfg dev hmis, ?_, ?_⟩
  · rintro ⟨h1, h2, h3, h4, h5⟩
    unfold FB.FBInit FB.FBInitAfterPut
    split_ifs <;> simp_all
  · intro cfg2 dev2 hne
    by_contra hneq
    exact hne (FBInit_fail_of_badcount cfg2 dev2 hneq)

/-- Witness for C10: a concrete mismatched configuration on a fully
cooperative device. -/
theorem fb_init_channelcount_witness :
    FB.sampleBadConfig.channelCount ≠
      FB.sampleBadConfig.width * FB.sampleBadConfig.height * 3 ∧
    ((FB.FBInit FB.sampleBadConfig FB.sampleDevice).1 = 0 ∧
     ((FB.sampleDevice.openOk = true ∧ FB.sampleDevice.getVInfoOk = true ∧
       (FB.sampleDevice.bpp = 32 ∨ FB.sampleDevice.bpp = 24 ∨ FB.sampleDevice.bpp = 16) ∧
       (FB.sampleDevice.putVInfoDoubleOk = true ∨ FB.sampleDevice.putVInfoSingleOk = true) ∧
       FB.sampleDevice.getFInfoOk = true) →
       (FB.FBInit FB.sampleBadConfig FB.sampleDevice).2.1
         = [FB.FBAction.restoreOrigMode, FB.FBAction.closeDevice]) ∧
     (∀ cfg2 dev2, (FB.FBInit cfg2 dev2).1 ≠ 0 →
       cfg2.channelCount = cfg2.width * cfg2.height * 3)) :=
  ⟨by decide, fb_init_channelcount FB.sampleBadConfig FB.sampleDevice (by decide)⟩

/-- Helper: membership after an ordered-map insertion. -/
theorem mem_mapInsert (id a : Nat) (l : List Nat) :
    a ∈ NetMon.mapInsert id l ↔ a = id ∨ a ∈ l := by
  induction l with
  | nil => simp [NetMon.mapInsert]
  | cons k ks ih =>
    unfold NetMon.mapInsert
    by_cases h1 : id < k
    · simp [h1]
    · by_cases h2 : id = k
      · subst h2
        simp [h1]
      · simp [h1, h2, ih]
        tauto

/-- Helper: inserting a key absent from an ordered map yields exactly one
occurrence of it. -/
theorem count_mapInsert_self (id : Nat) (l : List Nat) (h : id ∉ l) :
    (NetMon.mapInsert id l).count id = 1 := by
  induction l with
  | nil => simp [NetMon.mapInsert]
  | cons k ks ih =>
    have hk : id ≠ k := by
      intro heq
      exact h (heq ▸ List.mem_cons_self k ks)
    have hks : id ∉ ks := fun hmem => h (List.mem_cons_of_mem k hmem)
    unfold NetMon.mapInsert
    by_cases h1 : id < k
    · simp only [h1, if_true]
      rw [List.count_cons_self]
      rw [List.count_eq_zero.mpr (by
        intro hmem
        rcases List.mem_cons.mp hmem with heq | hmem2
        · exact hk heq
        · exact hks hmem2)]
    · rw [if_neg h1, if_neg hk]
      rw [List.count_cons_of_ne hk, ih hks]

/-- C9: `registerCallback` always succeeds and hands out a fresh id;
after registering, every decoded event invokes that callback exactly
once with exactly that `(kind, flag, interfaceName)` triple;
`removeCallback` on that id prevents any further invocation for it; and
`removeCallback` of an unknown id is a no-op. -/
theorem netmon_callback_registry (s : NetMon.NetworkMonitor)
    (hwf : ∀ i ∈ s.callbacks, i < s.curId) (ev : NetMon.NetEvent) :
    ((s.registerCallback).2 = s.curId ∧ (s.registerCallback).2 ∉ s.callbacks) ∧
    ((((s.registerCallback).1).callCallbacks ev).filter
        (fun p => p.1 = (s.registerCallback).2) = [((s.registerCallback).2, ev)]) ∧
    (∀ p ∈ (((s.registerCallback).1).removeCallback
        (s.registerCallback).2).callCallbacks ev,
      p.1 ≠ (s.registerCallback).2) ∧
    (∀ id2, id2 ∉ s.callbacks → s.removeCallback id2 = s) := by
  have hfresh : s.curId ∉ s.callbacks := by
    intro hmem
    exact absurd (hwf _ hmem) (lt_irrefl _)
  have hcount : (NetMon.mapInsert s.curId s.callbacks).count s.curId = 1 :=
    count_mapInsert_self _ _ hfresh
  refine ⟨⟨rfl, hfresh⟩, ?_, ?_, ?_⟩
  · show ((NetMon.mapInsert s.curId s.callbacks).map
        (fun id => (id, ev))).filter (fun p => p.1 = s.curId) = [(s.curId, ev)]
    rw [List.filter_map]
    have hpred : ((fun (p : Nat × NetMon.NetEvent) => decide (p.1 = s.curId)) ∘
        (fun id => (id, ev))) = (fun id => decide (id = s.curId)) := rfl
    rw [hpred, List.filter_eq, hcount]
    rfl
  · intro p hp
    obtain ⟨id, hid, rfl⟩ := List.mem_map.mp hp
    obtain ⟨-, hne⟩ := List.mem_filter.mp hid
    simpa using hne
  · intro id2 h2
    show { s with callbacks := s.callbacks.filter (fun k => k ≠ id2) } = s
    rw [List.filter_eq_self.mpr (by
      intro a ha
      have hne2 : a ≠ id2 := fun heq => h2 (heq ▸ ha)
      exact decide_eq_true hne2)]

/-- Witness for C9: the fresh monitor and a synthetic LinkUp event for
interface eth0 with flag 1. -/
theorem netmon_callback_registry_witness :
    (∀ i ∈ NetMon.NetworkMonitor.INSTANCE.callbacks,
        i < NetMon.NetworkMonitor.INSTANCE.curId) ∧
    (((NetMon.NetworkMonitor.INSTANCE.registerCallback).2
        = NetMon.NetworkMonitor.INSTANCE.curId ∧
      (NetMon.NetworkMonitor.INSTANCE.registerCallback).2
        ∉ NetMon.NetworkMonitor.INSTANCE.callbacks) ∧
     ((((NetMon.NetworkMonitor.INSTANCE.registerCallback).1).callCallbacks
          { kind := NetMon.NetEventType.NEW_LINK, up := 1, name := "eth0" }).filter
        (fun p => p.1 = (NetMon.NetworkMonitor.INSTANCE.registerCallback).2)
        = [((NetMon.NetworkMonitor.INSTANCE.registerCallback).2,
            { kind := NetMon.NetEventType.NEW_LINK, up := 1, name := "eth0" })]) ∧
     (∀ p ∈ (((NetMon.NetworkMonitor.INSTANCE.registerCallback).1).removeCallback
          (NetMon.NetworkMonitor.INSTANCE.registerCallback).2).callCallbacks
            { kind := NetMon.NetEventType.NEW_LINK, up := 1, name := "eth0" },
        p.1 ≠ (NetMon.NetworkMonitor.INSTANCE.registerCallback).2) ∧
     (∀ id2, id2 ∉ NetMon.NetworkMonitor.INSTANCE.callbacks →
        NetMon.NetworkMonitor.INSTANCE.removeCallback id2
          = NetMon.NetworkMonitor.INSTANCE)) :=
  ⟨by intro i hi; simp [NetMon.NetworkMonitor.INSTANCE] at hi,
   netmon_callback_registry NetMon.NetworkMonitor.INSTANCE
    (by intro i hi; simp [NetMon.NetworkMonitor.INSTANCE] at hi)
    { kind := NetMon.NetEventType.NEW_LINK, up := 1, name := "eth0" }⟩
